import Mathlib

/-!
Verification development for the ab-av1-cuda encode argument resolver and
VMAF filter-graph builder.

The Rust sources under `src/command/args/encode.rs` and
`src/command/args/vmaf.rs` are shallowly embedded below.  Rust strings are
modelled as `List Char`; `f64` durations and frame rates are modelled as
exact rationals; fallible computations return `Except Str _`.  External
process calls (`get_cuvid_decoders`, `detect_cuda_crop`,
`thread::available_parallelism`) and the `ffprobe::parse_frame_rate`
function (whose module is not part of this repository snapshot) are passed
in as explicit environment values, so every theorem quantifies over their
possible results.
-/

namespace AbAv1

set_option maxRecDepth 40000

/-- Rust `str`, modelled as a list of characters. -/
abbrev Str := List Char

/-- Rust `str::split(c)`: split at every occurrence of `c`; an empty input
gives one empty piece, separators at the ends give empty pieces. -/
def splitOnChar (c : Char) : Str → List Str
  | [] => [[]]
  | x :: xs =>
    if x = c then [] :: splitOnChar c xs
    else
      match splitOnChar c xs with
      | [] => [[x]]
      | h :: t => (x :: h) :: t

/-- Rust `str::split_once(c)`: split at the first occurrence of `c`. -/
def splitOnceChar (c : Char) : Str → Option (Str × Str)
  | [] => none
  | x :: xs =>
    if x = c then some ([], xs)
    else (splitOnceChar c xs).map fun p => (x :: p.1, p.2)

/-- ASCII whitespace (sufficient for the filter strings handled here). -/
def isWsChar (c : Char) : Bool :=
  c = ' ' ∨ c = '\t' ∨ c = '\n' ∨ c = '\r'

/-- Rust `str::trim`. -/
def trimStr (s : Str) : Str :=
  ((s.dropWhile isWsChar).reverse.dropWhile isWsChar).reverse

/-- Rust `str::strip_prefix`: drop `p` from the front of `s` when present. -/
def chopPre (p s : Str) : Option Str :=
  if p.isPrefixOf s then some (s.drop p.length) else none

/-- Rust `str::trim_start_matches(c)`. -/
def trimStartMatchesChar (c : Char) (s : Str) : Str :=
  s.dropWhile (· = c)

/-- Rust `[String]::join(sep)` / the joining done by `Vec::join`. -/
def intercal (sep : Str) : List Str → Str
  | [] => []
  | [x] => x
  | x :: xs => x ++ sep ++ intercal sep xs

/-- Fuel-driven worker for `listReplace` (structural recursion so the kernel
can evaluate it). -/
def listReplaceAux (pat repl : Str) : Nat → Str → Str
  | 0, s => s
  | _ + 1, [] => []
  | fuel + 1, c :: rest =>
    if pat ≠ [] ∧ pat.isPrefixOf (c :: rest) then
      repl ++ listReplaceAux pat repl fuel ((c :: rest).drop pat.length)
    else
      c :: listReplaceAux pat repl fuel rest

/-- Rust `str::replace(pat, repl)`: replace every non-overlapping occurrence,
left to right.  An empty pattern leaves the string unchanged. -/
def listReplace (s pat repl : Str) : Str :=
  if pat = [] then s else listReplaceAux pat repl s.length s

/-- Count non-overlapping occurrences of `pat`, left to right (used to state
facts such as "the bracket appears twice"). -/
def countSubAux (pat : Str) : Nat → Str → Nat
  | 0, _ => 0
  | _ + 1, [] => 0
  | fuel + 1, c :: rest =>
    if pat ≠ [] ∧ pat.isPrefixOf (c :: rest) then
      countSubAux pat fuel ((c :: rest).drop pat.length) + 1
    else
      countSubAux pat fuel rest

/-- Number of non-overlapping occurrences of `pat` in `s`. -/
def countSub (s pat : Str) : Nat :=
  countSubAux pat s.length s

/-- Rust `str::contains(pat)` for a substring pattern. -/
def strContains (s pat : Str) : Bool :=
  decide (pat <:+: s)

/-- Decimal digit character. -/
def digitChar (d : Nat) : Char := Char.ofNat (48 + d)

/-- Fuel-driven base-10 rendering of a natural number. -/
def natToStrAux : Nat → Nat → Str
  | 0, _ => []
  | fuel + 1, n =>
    if n < 10 then [digitChar n]
    else natToStrAux fuel (n / 10) ++ [digitChar (n % 10)]

/-- Rust `usize` `Display`: base-10 digits. -/
def natToStr (n : Nat) : Str := natToStrAux (n + 1) n

/-- Rust `i32` `Display`: optional minus sign and base-10 digits. -/
def intToStr (i : Int) : Str :=
  if i < 0 then '-' :: natToStr (-i).toNat else natToStr i.toNat

/-- Rational multiplication written through `mkRat` so that the kernel can
evaluate it (`Rat.mul` is `@[irreducible]`); `ratMul_eq_mul` bridges to `*`. -/
def ratMul (a b : ℚ) : ℚ := mkRat (a.num * b.num) (a.den * b.den)

/-- Rational addition written through `mkRat`; `ratAdd_eq_add` bridges to `+`. -/
def ratAdd (a b : ℚ) : ℚ := mkRat (a.num * b.den + b.num * a.den) (a.den * b.den)

theorem ratMul_eq_mul (a b : ℚ) : ratMul a b = a * b := by
  have hd : a.den * b.den ≠ 0 := Nat.mul_ne_zero a.den_nz b.den_nz
  rw [ratMul, Rat.mul_def, Rat.mkRat_def, dif_neg hd]

theorem ratAdd_eq_add (a b : ℚ) : ratAdd a b = a + b := by
  have hd : a.den * b.den ≠ 0 := Nat.mul_ne_zero a.den_nz b.den_nz
  rw [ratAdd, Rat.add_def, Rat.mkRat_def, dif_neg hd]

/-- Rust `f64::round`: round to the nearest integer, ties away from zero
(exact-rational model of the floating-point value). -/
def rustRound (q : ℚ) : Int :=
  if 0 ≤ q then Rat.floor (ratAdd q (mkRat 1 2))
  else -Rat.floor (ratAdd (-q) (mkRat 1 2))

/-- Rust saturating `as i32` cast applied to an already-rounded value. -/
def i32sat (i : Int) : Int :=
  max (-(2 ^ 31)) (min (2 ^ 31 - 1) i)

/-! ## Data model from `src/command/args/encode.rs` -/

/-- `PixelFormat` (ordered by ascending quality).  `to_ffmpeg_args`
additionally references a `PixelFormat::Nv12` value for active CUDA
decoders, so the embedding carries that variant too; it plays no role in
any claim. -/
inductive PixelFormat
  | yuv420p
  | yuv420p10le
  | yuv422p10le
  | yuv444p10le
  | nv12
deriving DecidableEq

/-- `KeyInterval`: a frame count or a duration in seconds (exact-rational
model of `std::time::Duration`). -/
inductive KeyInterval
  | frames (n : Int)
  | duration (secs : ℚ)
deriving DecidableEq

/-- `KeyInterval::keyint_number`: a frame count is returned unchanged; a
duration is converted via the supplied frame rate, `(secs * fps).round() as
i32`, propagating an unavailable frame rate. -/
def keyintNumber (ki : KeyInterval) (fps : Except Str ℚ) : Except Str Int :=
  match ki with
  | .frames k => .ok k
  | .duration d => fps.map fun f => i32sat (rustRound (ratMul d f))

deriving instance DecidableEq for Except

/-- The probe result consumed by the resolver (`Ffprobe`). -/
structure Ffprobe where
  duration : Except Str ℚ
  hasAudio : Bool
  maxAudioChannels : Option Nat
  fps : Except Str ℚ
  resolution : Option (Nat × Nat)
  isImage : Bool
  pixFmt : Option Str
deriving DecidableEq

/-- The `Encode` clap configuration (`struct Encode`). -/
structure EncodeCfg where
  encoder : Str
  input : Str
  vfilter : Option Str
  pixFormat : Option PixelFormat
  preset : Option Str
  keyint : Option KeyInterval
  scd : Option Bool
  svtArgs : List Str
  encArgs : List Str
  encInputArgs : List Str
  cudaDecoder : Option Str
  cudaFilters : List Str
  cudaScalingMethod : Str
  cudaSurfaces : Nat
  vmafPath : Str
  vmafCuda : Bool
  vmafModel : Str
  vmafSurfaces : Nat
deriving DecidableEq

/-- The resolved argument set (`FfmpegEncodeArgs`). -/
structure FfmpegEncodeArgs where
  input : Str
  vcodec : Str
  pixFmt : Option PixelFormat
  vfilter : Option Str
  crf : ℚ
  preset : Option Str
  outputArgs : List Str
  inputArgs : List Str
  videoOnly : Bool
deriving DecidableEq

/-- Results of the external collaborators: the decoder-list query
(`get_cuvid_decoders`), the crop-detection query (`detect_cuda_crop`) and
`ffprobe::parse_frame_rate` (whose module is not part of this snapshot).
Every theorem quantifies over an arbitrary environment. -/
structure Env where
  cuvidDecoders : Except Str (List Str)
  cropDetect : Except Str Str
  parseFrameRate : Str → Option ℚ

/-! ## Argument parsers and encoder tables -/

/-- Error text of `parse_enc_arg`'s `ensure!`. -/
def encArgDenyMsg : Str := "'svtav1-params' cannot be set here, use `--svt`".data

/-- `parse_enc_arg`: prepend `-` when missing, then refuse anything starting
with `-svtav1-params`. -/
def parseEncArg (s : Str) : Except Str Str :=
  let arg := if "-".data.isPrefixOf s then s else '-' :: s
  if "-svtav1-params".data.isPrefixOf arg then .error encArgDenyMsg
  else .ok arg

/-- `Encoder::default_ffmpeg_args`. -/
def defaultFfmpegArgs (vcodec : Str) : List (Str × Str) :=
  if vcodec = "libaom-av1".data ∨ vcodec = "libvpx-vp9".data then
    [("-b:v".data, "0".data)]
  else if vcodec = "av1_qsv".data ∨ vcodec = "hevc_qsv".data ∨ vcodec = "h264_qsv".data then
    [("-look_ahead".data, "1".data), ("-extbrc".data, "1".data),
     ("-look_ahead_depth".data, "40".data)]
  else []

/-- `Encoder::default_ffmpeg_input_args`. -/
def defaultFfmpegInputArgs (vcodec : Str) : List (Str × Str) :=
  if "_vaapi".data.isSuffixOf vcodec then
    [("-hwaccel".data, "vaapi".data), ("-hwaccel_output_format".data, "vaapi".data)]
  else if "_vulkan".data.isSuffixOf vcodec then
    [("-hwaccel".data, "vulkan".data), ("-hwaccel_output_format".data, "vulkan".data)]
  else if "_cuvid".data.isSuffixOf vcodec then
    [("-hwaccel".data, "cuda".data), ("-hwaccel_output_format".data, "cuda".data)]
  else []

/-- `try_parse_fps_vfilter`: the first comma-separated filter segment whose
trimmed form begins `fps=`, with the named rates resolved inline and
anything else handed to `ffprobe::parse_frame_rate`. -/
def tryParseFpsVfilter (pfr : Str → Option ℚ) (vfilter : Str) : Option ℚ :=
  match (splitOnChar ',' vfilter).findSome? (fun vf => chopPre "fps=".data (trimStr vf)) with
  | none => none
  | some fpsFilter =>
    let f := trimStr fpsFilter
    if f = "ntsc".data then some (mkRat 30000 1001)
    else if f = "pal".data then some 25
    else if f = "film".data then some 24
    else if f = "ntsc_film".data then some (mkRat 24000 1001)
    else pfr f

/-! ## `Encode::keyint` and the stages of `Encode::to_ffmpeg_args` -/

/-- `KEYINT_DEFAULT_INPUT_MIN` = 3 minutes, in seconds. -/
def keyintDefaultInputMin : ℚ := 180

/-- `KEYINT_DEFAULT` = 10 seconds. -/
def keyintDefault : KeyInterval := .duration 10

/-- `Encode::keyint`: an explicit interval is converted with the
filter-`fps=` rate when one parses, else the probed rate; with no explicit
interval, inputs of at least 3 minutes whose frame rate is resolvable get
the 10-second default. -/
def keyintOf (cfg : EncodeCfg) (probe : Ffprobe) (pfr : Str → Option ℚ) :
    Except Str (Option Int) :=
  let filterFps := cfg.vfilter.bind (tryParseFpsVfilter pfr)
  match cfg.keyint, probe.duration, probe.fps, filterFps with
  | some ki, _, _, some f => (keyintNumber ki (.ok f)).map some
  | some ki, _, fps, none => (keyintNumber ki fps).map some
  | none, .ok dur, _, some f =>
    if keyintDefaultInputMin ≤ dur then (keyintNumber keyintDefault (.ok f)).map some
    else .ok none
  | none, .ok dur, .ok f, none =>
    if keyintDefaultInputMin ≤ dur then (keyintNumber keyintDefault (.ok f)).map some
    else .ok none
  | _, _, _, _ => .ok none

/-- Error text of the unavailable-decoder `bail!`. -/
def cuvidUnavailableMsg (decoder : Str) (available : List Str) : Str :=
  "CUDA decoder ".data ++ decoder ++ " not available. Supported: ".data ++
    intercal ", ".data available

/-- Error text of the surface-count `ensure!`. -/
def surfacesMsg (surfaces : Nat) : Str :=
  "CUDA surfaces must be between 8-32 for Pascal GPUs (got ".data ++
    natToStr surfaces ++ ")".data

/-- Lines 260–269: if a CUDA decoder is requested, query the decoder list
and fail when the requested decoder is absent. -/
def checkCudaDecoder (env : Env) (cfg : EncodeCfg) : Except Str Unit :=
  match cfg.cudaDecoder with
  | none => .ok ()
  | some d => do
    let available ← env.cuvidDecoders
    if d ∈ available then .ok ()
    else .error (cuvidUnavailableMsg d available)

/-- Lines 272–276: when an `autocrop` CUDA filter is present the crop
detection runs; its result is pushed into a local that is never read again,
so only a detection failure is observable. -/
def autocropStage (env : Env) (cfg : EncodeCfg) : Except Str Unit :=
  if "autocrop".data ∈ cfg.cudaFilters then env.cropDetect.map fun _ => ()
  else .ok ()

/-- Error text of the `--svt` gating `ensure!`. -/
def svtGateMsg : Str := "--svt may only be used with svt-av1".data

/-- Lines 279–282: `--svt` args are only allowed with the svt-av1 encoder. -/
def svtGate (cfg : EncodeCfg) : Except Str Unit :=
  if cfg.encoder = "libsvtav1".data ∨ cfg.svtArgs = [] then .ok ()
  else .error svtGateMsg

/-- Lines 285–299: the duplicated CUDA validation block — the decoder check
again, then the surface-count range check. -/
def validateCudaConfig (env : Env) (cfg : EncodeCfg) : Except Str Unit :=
  match cfg.cudaDecoder with
  | none => .ok ()
  | some d => do
    let available ← env.cuvidDecoders
    if d ∈ available then
      if 8 ≤ cfg.cudaSurfaces ∧ cfg.cudaSurfaces ≤ 32 then .ok ()
      else .error (surfacesMsg cfg.cudaSurfaces)
    else .error (cuvidUnavailableMsg d available)

/-- Lines 301–305: preset resolution. -/
def presetOf (cfg : EncodeCfg) : Option Str :=
  match cfg.preset with
  | some n => some n
  | none => if cfg.encoder = "libsvtav1".data then some "8".data else none

/-- Lines 311–314: the resolved scene-change flag. -/
def scdFlag (cfg : EncodeCfg) (ki : Option Int) : Nat :=
  if cfg.scd = some true ∨ (cfg.keyint = none ∧ ki.isSome) then 1 else 0

/-- Lines 336–349: the CUDA filter chain.  The `crop=`/`scale=` tokens are
textually rewritten and the download/format/upload bracket is applied
twice: once at line 340 and again by the immediately following `if` at
lines 344–349 (whose condition sees the already-wrapped, hence non-empty,
string). -/
def cudaFilterChain (filters : List Str) : Str :=
  if filters = [] then []
  else
    let rewritten :=
      listReplace
        (listReplace (intercal ",".data filters) "crop=".data "hwupload_cuda,crop=".data)
        "scale=".data "scale_cuda=format=nv12:".data
    let once := "hwdownload,format=nv12,".data ++ rewritten ++ ",hwupload_cuda".data
    "hwdownload,format=nv12,".data ++ once ++ ",hwupload_cuda".data

/-- Lines 321–350: the CUDA input arguments (present only with an active
decoder). -/
def cudaInputArgs (cfg : EncodeCfg) : List Str :=
  match cfg.cudaDecoder with
  | none => []
  | some dec =>
    ["-hwaccel".data, "cuda".data, "-hwaccel_output_format".data, "cuda".data,
     "-extra_hw_frames".data, natToStr cfg.cudaSurfaces, "-c:v".data, dec]

/-- The CUDA filter-chain string of the `to_ffmpeg_args` body: empty unless
a decoder is active. -/
def cudaChainOf (cfg : EncodeCfg) : Str :=
  match cfg.cudaDecoder with
  | none => []
  | some _ => cudaFilterChain cfg.cudaFilters

/-- Lines 395–403: the merge of the CUDA chain with the user's vfilter.
(The result is left in a local that the returned `FfmpegEncodeArgs` does
not use.) -/
def mergedVfilter (cfg : EncodeCfg) : Str :=
  let chain := cudaChainOf cfg
  let vf := (cfg.vfilter).getD []
  if chain = [] then vf
  else if vf = [] then chain
  else chain ++ ",".data ++ vf

/-- One `enc_args` element's contribution to the flattened output arguments
(lines 352–367): `name=value` splits at the first `=` into two tokens, a
`svtav1-params`-named argument contributes nothing here (it is folded into
`svtav1_params` instead), anything without `=` passes through whole. -/
def encArgOut (a : Str) : List Str :=
  match splitOnceChar '=' a with
  | some (opt, val) => if opt = "svtav1-params".data then [] else [opt, val]
  | none => [a]

/-- One `enc_args` element's contribution to the `svtav1_params` pushes of
line 358 (the whole argument is pushed). -/
def encArgFold (a : Str) : List Str :=
  match splitOnceChar '=' a with
  | some (opt, _) => if opt = "svtav1-params".data then [a] else []
  | none => []

/-- Lines 352–367: the `enc_args` `flat_map`.  Returns the flattened output
arguments and the arguments folded into `svtav1_params`, both in argument
order. -/
def encArgsFlatten (encArgs : List Str) : List Str × List Str :=
  (encArgs.flatMap encArgOut, encArgs.flatMap encArgFold)

/-- Lines 405–416 minus the CUDA chain: the `enc_input_args` flattening. -/
def encInputArgsFlatten (args : List Str) : List Str :=
  args.flatMap fun a =>
    match splitOnceChar '=' a with
    | some (opt, val) => [opt, val]
    | none => [a]

/-- The append-unless-flag-present loops of lines 382–387 and 418–423. -/
def addDefaults (args : List Str) (defaults : List (Str × Str)) : List Str :=
  defaults.foldl (fun acc p => if p.1 ∈ acc then acc else acc ++ [p.1, p.2]) args

/-- Lines 309–318 and 358: the final `svtav1_params` list — the
scene-change entry and the `--svt` args for the svt-av1 encoder, followed
by the values folded out of `enc_args`. -/
def svtParamsList (cfg : EncodeCfg) (ki : Option Int) : List Str :=
  (if cfg.encoder = "libsvtav1".data then
    ("scd=".data ++ natToStr (scdFlag cfg ki)) :: cfg.svtArgs
  else []) ++ (encArgsFlatten cfg.encArgs).2

/-- Lines 352–372: the flattened `enc_args` with the combined
`-svtav1-params` argument appended when the parameter list is non-empty. -/
def outputArgs1 (cfg : EncodeCfg) (ki : Option Int) : List Str :=
  if svtParamsList cfg ki = [] then (encArgsFlatten cfg.encArgs).1
  else (encArgsFlatten cfg.encArgs).1 ++
    ["-svtav1-params".data, intercal ":".data (svtParamsList cfg ki)]

/-- Lines 374–380: `-g` is appended for a resolved interval unless already
present. -/
def outputArgs2 (cfg : EncodeCfg) (ki : Option Int) : List Str :=
  match ki with
  | some k =>
    if "-g".data ∈ outputArgs1 cfg ki then outputArgs1 cfg ki
    else outputArgs1 cfg ki ++ ["-g".data, intToStr k]
  | none => outputArgs1 cfg ki

/-- Lines 309–387: the fully assembled output-argument list for a resolved
keyframe interval `ki`. -/
def outputArgsOf (cfg : EncodeCfg) (ki : Option Int) : List Str :=
  addDefaults (outputArgs2 cfg ki) (defaultFfmpegArgs cfg.encoder)

/-- Lines 389–393: pixel-format resolution. -/
def pixFmtOf (cfg : EncodeCfg) : Option PixelFormat :=
  match cfg.pixFormat with
  | some p => some p
  | none =>
    if cfg.encoder = "libsvtav1".data ∨ cfg.encoder = "libaom-av1".data ∨
        cfg.encoder = "librav1e".data then some .yuv420p10le
    else if (cfg.cudaDecoder).isSome then some .nv12
    else none

/-- Lines 405–423: the fully assembled input-argument list. -/
def inputArgsOf (cfg : EncodeCfg) : List Str :=
  addDefaults (encInputArgsFlatten cfg.encInputArgs ++ cudaInputArgs cfg)
    (defaultFfmpegInputArgs cfg.encoder)

/-- Lines 426–435: the input-argument deny-list (flag, remedy hint). -/
def inputReserved : List (Str × Str) :=
  [("-i".data, []), ("-y".data, []), ("-n".data, []),
   ("-pix_fmt".data, " use --pix-format".data),
   ("-crf".data, []),
   ("-preset".data, " use --preset".data),
   ("-vf".data, " use --vfilter".data),
   ("-filter:v".data, " use --vfilter".data)]

/-- Lines 441–454: the output-argument deny-list (the input list extended
with the codec-selection flags). -/
def outputReserved : List (Str × Str) :=
  inputReserved ++
  [("-c:a".data, " use --acodec".data), ("-codec:a".data, " use --acodec".data),
   ("-acodec".data, " use --acodec".data),
   ("-c:v".data, " use --encoder".data), ("-c:v:0".data, " use --encoder".data),
   ("-codec:v".data, " use --encoder".data), ("-codec:v:0".data, " use --encoder".data),
   ("-vcodec".data, " use --encoder".data)]

/-- The first argument hitting the deny-list, with its remedy hint.  (The
source consults a `HashMap` by exact lookup, so an association list with
distinct keys is equivalent.) -/
def findReserved (tbl : List (Str × Str)) (args : List Str) : Option (Str × Str) :=
  args.findSome? fun a => (tbl.lookup a).map fun h => (a, h)

/-- Error text of the reserved-argument `bail!`. -/
def notAllowedMsg (flag hint : Str) : Str :=
  "Encoder argument `".data ++ flag ++ "` not allowed".data ++ hint

/-- Lines 436–440 / 455–459: fail on the first reserved argument. -/
def checkReserved (tbl : List (Str × Str)) (args : List Str) : Except Str Unit :=
  match findReserved tbl args with
  | some fh => .error (notAllowedMsg fh.1 fh.2)
  | none => .ok ()

/-- `Encode::to_ffmpeg_args` (lines 258–472): the full resolver.  The
returned `vfilter` field is `self.vfilter.as_deref()` — the merged
CUDA/vfilter string of `mergedVfilter` is computed and then dropped. -/
def toFfmpegArgs (cfg : EncodeCfg) (crf : ℚ) (probe : Ffprobe) (env : Env) :
    Except Str FfmpegEncodeArgs := do
  checkCudaDecoder env cfg
  autocropStage env cfg
  svtGate cfg
  validateCudaConfig env cfg
  let ki ← keyintOf cfg probe env.parseFrameRate
  let outArgs := outputArgsOf cfg ki
  let _merged := mergedVfilter cfg
  let inArgs := inputArgsOf cfg
  checkReserved inputReserved inArgs
  checkReserved outputReserved outArgs
  pure
    { input := cfg.input
      vcodec := cfg.encoder
      pixFmt := pixFmtOf cfg
      vfilter := cfg.vfilter
      crf := crf
      preset := presetOf cfg
      outputArgs := outArgs
      inputArgs := inArgs
      videoOnly := false }

/-! ## `src/command/args/vmaf.rs`: the VMAF filter-graph builder -/

/-- `VmafScale`: the scaling policy. -/
inductive VmafScale
  | noScale
  | auto
  | custom (width height : Nat)
deriving DecidableEq

/-- `VmafModel`: the classified perceptual model. -/
inductive VmafModel
  | vmaf1K
  | vmaf4K
  | custom
deriving DecidableEq

/-- `struct Vmaf`: the quality-comparison configuration (`vmaf_fps` is
unused by `ffmpeg_lavfi`). -/
structure VmafCfg where
  vmafArgs : List Str
  vmafScale : VmafScale
  vmafFps : ℚ
deriving DecidableEq

/-- `VmafModel::from_args`: zero `model`-containing args → no explicit
model; exactly one → classified by suffix; more than one → custom. -/
def vmafModelFromArgs (args : List Str) : Option VmafModel :=
  match args.filter (fun v => strContains v "model".data) with
  | [] => none
  | [v] =>
    if "version=vmaf_v0.6.1".data.isSuffixOf v then some .vmaf1K
    else if "version=vmaf_4k_v0.6.1".data.isSuffixOf v then some .vmaf4K
    else some .custom
  | _ => some .custom

/-- `thread::available_parallelism().map_or(1, |p| p.get())`: the
environment's parallelism (`none` models the error case). -/
def defaultNThreads (par : Option Nat) : Nat :=
  match par with
  | none => 1
  | some p => p

/-- Lines 79–89 of `ffmpeg_lavfi`: the raw args with the `n_threads`
default appended when no argument mentions it. -/
def lavfiArgs (cfg : VmafCfg) (par : Option Nat) : List Str :=
  if cfg.vmafArgs.any (fun a => strContains a "n_threads".data) then cfg.vmafArgs
  else cfg.vmafArgs ++ ["n_threads=".data ++ natToStr (defaultNThreads par)]

/-- Lines 90–91: the joined libvmaf invocation. -/
def lavfiBase (cfg : VmafCfg) (par : Option Nat) : Str :=
  "libvmaf=shortest=true:ts_sync_mode=nearest:".data ++
    intercal ":".data (lavfiArgs cfg par)

/-- The 4k model-override token appended on auto-promotion. -/
def vmaf4kToken : Str := ":model=version=vmaf_4k_v0.6.1".data

/-- Lines 93–100: model inference and the >2560×1440 auto-promotion to the
4k model. -/
def lavfiWithModel (cfg : VmafCfg) (par : Option Nat)
    (distortedRes : Option (Nat × Nat)) : Str × Option VmafModel :=
  let lavfi := lavfiBase cfg par
  let model := vmafModelFromArgs (lavfiArgs cfg par)
  match model, distortedRes with
  | none, some (w, h) =>
    if 2560 < w ∧ 1440 < h then (lavfi ++ vmaf4kToken, some .vmaf4K)
    else (lavfi, none)
  | _, _ => (lavfi, model)

/-- `minimally_scale`: fix the dimension whose blow-up factor is larger,
let the other auto-derive (`-1`).  The `f64` divisions are modelled as
exact rationals. -/
def minimallyScale (fromRes target : Nat × Nat) : Int × Int :=
  let wFactor : ℚ := mkRat fromRes.1 target.1
  let hFactor : ℚ := mkRat fromRes.2 target.2
  if hFactor > wFactor then (-1, (target.2 : Int)) else ((target.1 : Int), -1)

/-- `Vmaf::vf_scale`. -/
def vfScale (cfg : VmafCfg) (model : VmafModel) (distortedRes : Option (Nat × Nat)) :
    Option (Int × Int) :=
  match cfg.vmafScale, distortedRes with
  | .auto, some (w, h) =>
    match model with
    | .vmaf1K =>
      if w < 1728 ∧ h < 972 then some (minimallyScale (w, h) (1920, 1080)) else none
    | .vmaf4K =>
      if w < 3456 ∧ h < 1944 then some (minimallyScale (w, h) (3840, 2160)) else none
    | .custom => none
  | .custom width height, some (w, h) => some (minimallyScale (w, h) (width, height))
  | .custom width height, none => some ((width : Int), (height : Int))
  | _, _ => none

/-- Lines 102–106: the reference filter, comma-terminated when present. -/
def refVfStr (refVfilter : Option Str) : Str :=
  match refVfilter with
  | none => []
  | some vf => if ",".data.isSuffixOf vf then vf else vf ++ ",".data

/-- `PixelFormat::as_str` (the `Display` used in the `format=` step). -/
def pixelFormatStr : PixelFormat → Str
  | .yuv420p10le => "yuv420p10le".data
  | .yuv422p10le => "yuv422p10le".data
  | .yuv444p10le => "yuv444p10le".data
  | .yuv420p => "yuv420p".data
  | .nv12 => "nv12".data

/-- Line 107: the optional pixel-format conversion step. -/
def formatStr (pixFmt : Option PixelFormat) : Str :=
  match pixFmt with
  | none => []
  | some v => "format=".data ++ pixelFormatStr v ++ ",".data

/-- Lines 108–111: the optional bicubic scale step. -/
def scaleStepStr (sc : Option (Int × Int)) : Str :=
  match sc with
  | none => []
  | some (w, h) =>
    "scale=".data ++ intToStr w ++ ":".data ++ intToStr h ++ ":flags=bicubic,".data

/-- `Vmaf::ffmpeg_lavfi` (lines 73–126): the complete filter-graph string. -/
def ffmpegLavfi (cfg : VmafCfg) (par : Option Nat) (distortedRes : Option (Nat × Nat))
    (pixFmt : Option PixelFormat) (refVfilter : Option Str) : Str :=
  let lm := lavfiWithModel cfg par distortedRes
  let refVf := refVfStr refVfilter
  let format := formatStr pixFmt
  let scale := scaleStepStr (vfScale cfg (lm.2.getD .vmaf1K) distortedRes)
  "[0:v]".data ++ format ++ scale ++ "setpts=PTS-STARTPTS,settb=AVTB[dis];".data ++
    "[1:v]".data ++ format ++ refVf ++ scale ++ "setpts=PTS-STARTPTS,settb=AVTB[ref];".data ++
    "[dis][ref]".data ++ lm.1

/-! ## Support lemmas -/

theorem except_bind_ok {ε α β : Type} (x : Except ε α) (f : α → Except ε β) (r : β) :
    (x >>= f) = .ok r ↔ ∃ a, x = .ok a ∧ f a = .ok r := by
  cases x <;> simp [Bind.bind, Except.bind]

theorem pre_append_of_pre {α : Type} {p q : List α} (v : List α) (h : p <+: q) :
    p <+: q ++ v :=
  h.trans (List.prefix_append q v)

theorem intercal_cons_pre (sep a : Str) (l : List Str) :
    a <+: intercal sep (a :: l) := by
  cases l with
  | nil => simp [intercal]
  | cons b t =>
    show a <+: a ++ sep ++ intercal sep (b :: t)
    exact pre_append_of_pre _ (List.prefix_append a sep)

theorem mem_natToStrAux (fuel n : Nat) :
    ∀ c ∈ natToStrAux fuel n, ∃ d, d < 10 ∧ c = digitChar d := by
  induction fuel generalizing n with
  | zero => simp [natToStrAux]
  | succ fuel ih =>
    intro c hc
    simp only [natToStrAux] at hc
    by_cases h : n < 10
    · simp only [if_pos h, List.mem_singleton] at hc
      exact ⟨n, h, hc⟩
    · simp only [if_neg h, List.mem_append, List.mem_singleton] at hc
      rcases hc with hc | hc
      · exact ih _ c hc
      · exact ⟨n % 10, Nat.mod_lt _ (by norm_num), hc⟩

theorem mem_natToStr (n : Nat) : ∀ c ∈ natToStr n, ∃ d, d < 10 ∧ c = digitChar d :=
  mem_natToStrAux (n + 1) n

theorem digit_mem_natToStr {n : Nat} {c : Char} (h : c ∈ natToStr n) :
    48 ≤ c.toNat ∧ c.toNat ≤ 57 := by
  obtain ⟨d, hd, rfl⟩ := mem_natToStr n c h
  interval_cases d <;> simp [digitChar]

theorem strContains_iff (s pat : Str) : strContains s pat = true ↔ pat <:+: s := by
  simp [strContains]

theorem mem_of_infix {α : Type} {p s : List α} (h : p <:+: s) : ∀ c ∈ p, c ∈ s :=
  fun _ hc => h.sublist.subset hc

/-! ## C10 -/

/-- C10: for a frame-count-tagged interval, `keyint_number` succeeds with
the stored count for every frame-rate argument, including an erroneous one;
for a duration-tagged interval it fails exactly when the frame rate is
unavailable, otherwise returning `(secs * fps).round() as i32`. -/
theorem keyintNumber_spec (fps : Except Str ℚ) :
    (∀ k : Int, keyintNumber (.frames k) fps = .ok k) ∧
    (∀ (d : ℚ) (e : Str), fps = .error e → keyintNumber (.duration d) fps = .error e) ∧
    (∀ (d f : ℚ), fps = .ok f →
      keyintNumber (.duration d) fps = .ok (i32sat (rustRound (ratMul d f)))) := by
  refine ⟨fun k => rfl, ?_, ?_⟩ <;> (intro d x h; subst h; rfl)

/-- Witness for C10 at concrete inputs: frames survive an erroneous frame
rate, a duration fails on it, and `10s` at 24 fps gives 240 frames. -/
theorem keyintNumber_spec_witness :
    keyintNumber (.frames 300) (.error "no fps".data) = .ok 300 ∧
    keyintNumber (.duration 10) (.error "no fps".data) = .error "no fps".data ∧
    keyintNumber (.duration 10) (.ok 24) = .ok 240 :=
  ⟨(keyintNumber_spec _).1 300,
   (keyintNumber_spec _).2.1 10 _ rfl,
   ((keyintNumber_spec (.ok 24)).2.2 10 24 rfl).trans (by decide)⟩

/-! ## C9 -/

/-- C9: an `--enc` argument whose option name is `svtav1-params` — with or
without a leading dash, with or without a value — is rejected by
`parse_enc_arg` with the error directing to `--svt`; every accepted
argument starts with `-` but never with `-svtav1-params`, so the value can
never enter through this channel. -/
theorem parseEncArg_rejects_svtav1_params :
    (∀ v : Str, parseEncArg ("svtav1-params=".data ++ v) = .error encArgDenyMsg) ∧
    (∀ v : Str, parseEncArg ("-svtav1-params=".data ++ v) = .error encArgDenyMsg) ∧
    parseEncArg "svtav1-params".data = .error encArgDenyMsg ∧
    parseEncArg "-svtav1-params".data = .error encArgDenyMsg ∧
    (∀ s r : Str, parseEncArg s = .ok r →
      ("-".data).isPrefixOf r = true ∧ ("-svtav1-params".data).isPrefixOf r = false) := by
  have hpre : ∀ v : Str, ("-svtav1-params".data).isPrefixOf
      ('-' :: ("svtav1-params=".data ++ v)) = true := by
    intro v
    rw [List.isPrefixOf_iff_prefix]
    have h1 : "-svtav1-params".data = '-' :: "svtav1-params".data := by decide
    rw [h1, List.cons_prefix_cons]
    exact ⟨rfl, pre_append_of_pre v (by decide)⟩
  have hnodash : ∀ v : Str, ("-".data).isPrefixOf ("svtav1-params=".data ++ v) = false := by
    intro v
    rw [Bool.eq_false_iff]
    intro h
    rw [List.isPrefixOf_iff_prefix] at h
    have h1 : "svtav1-params=".data ++ v = 's' :: ("vtav1-params=".data ++ v) := by
      have : "svtav1-params=".data = 's' :: "vtav1-params=".data := by decide
      rw [this, List.cons_append]
    rw [h1] at h
    have := (List.cons_prefix_cons.mp h).1
    simp at this
  refine ⟨?_, ?_, by decide, by decide, ?_⟩
  · intro v
    simp only [parseEncArg, hnodash v, Bool.false_eq_true, if_false, hpre v, if_true]
  · intro v
    have h1 : ("-svtav1-params=".data ++ v) = '-' :: ("svtav1-params=".data ++ v) := by
      have h2 : "-svtav1-params=".data = '-' :: "svtav1-params=".data := by decide
      rw [h2, List.cons_append]
    have hc1 : ("-".data).isPrefixOf ('-' :: ("svtav1-params=".data ++ v)) = true := by
      simp [show "-".data = ['-'] from rfl, List.isPrefixOf]
    rw [h1]
    simp only [parseEncArg, hc1, if_true, hpre v]
  · intro s r h
    rw [parseEncArg] at h
    by_cases hc1 : ("-".data).isPrefixOf s = true
    · simp only [hc1, if_true] at h
      by_cases hc2 : ("-svtav1-params".data).isPrefixOf s = true
      · simp [hc2] at h
      · simp only [Bool.not_eq_true] at hc2
        simp only [hc2, Bool.false_eq_true, if_false, Except.ok.injEq] at h
        subst h
        exact ⟨hc1, hc2⟩
    · simp only [Bool.not_eq_true] at hc1
      simp only [hc1, Bool.false_eq_true, if_false] at h
      by_cases hc2 : ("-svtav1-params".data).isPrefixOf ('-' :: s) = true
      · simp [hc2] at h
      · simp only [Bool.not_eq_true] at hc2
        simp only [hc2, Bool.false_eq_true, if_false, Except.ok.injEq] at h
        subst h
        refine ⟨by simp [List.isPrefixOf], hc2⟩

/-- Witness for C9: `svtav1-params=tune=0` is refused with the `--svt`
redirect; an unrelated argument is accepted with a dash and without the
banned prefix. -/
theorem parseEncArg_rejects_svtav1_params_witness :
    parseEncArg ("svtav1-params=".data ++ "tune=0".data) = .error encArgDenyMsg ∧
    (("-".data).isPrefixOf "-x265-params=log=0".data = true ∧
      ("-svtav1-params".data).isPrefixOf "-x265-params=log=0".data = false) :=
  ⟨parseEncArg_rejects_svtav1_params.1 "tune=0".data,
   parseEncArg_rejects_svtav1_params.2.2.2.2 "-x265-params=log=0".data _ (by decide)⟩

/-! ## Dissecting the resolver's monadic pipeline -/

/-- The record built by the final `Ok(FfmpegEncodeArgs { .. })`. -/
def resolvedResult (cfg : EncodeCfg) (crf : ℚ) (ki : Option Int) : FfmpegEncodeArgs :=
  { input := cfg.input
    vcodec := cfg.encoder
    pixFmt := pixFmtOf cfg
    vfilter := cfg.vfilter
    crf := crf
    preset := presetOf cfg
    outputArgs := outputArgsOf cfg ki
    inputArgs := inputArgsOf cfg
    videoOnly := false }

theorem toFfmpegArgs_ok_iff (cfg : EncodeCfg) (crf : ℚ) (probe : Ffprobe) (env : Env)
    (r : FfmpegEncodeArgs) :
    toFfmpegArgs cfg crf probe env = .ok r ↔
      checkCudaDecoder env cfg = .ok () ∧ autocropStage env cfg = .ok () ∧
      svtGate cfg = .ok () ∧ validateCudaConfig env cfg = .ok () ∧
      ∃ ki, keyintOf cfg probe env.parseFrameRate = .ok ki ∧
        checkReserved inputReserved (inputArgsOf cfg) = .ok () ∧
        checkReserved outputReserved (outputArgsOf cfg ki) = .ok () ∧
        r = resolvedResult cfg crf ki := by
  constructor
  · intro h
    rw [toFfmpegArgs] at h
    obtain ⟨u1, h1, h⟩ := (except_bind_ok _ _ _).mp h
    obtain ⟨u2, h2, h⟩ := (except_bind_ok _ _ _).mp h
    obtain ⟨u3, h3, h⟩ := (except_bind_ok _ _ _).mp h
    obtain ⟨u4, h4, h⟩ := (except_bind_ok _ _ _).mp h
    obtain ⟨ki, h5, h⟩ := (except_bind_ok _ _ _).mp h
    obtain ⟨u6, h6, h⟩ := (except_bind_ok _ _ _).mp h
    obtain ⟨u7, h7, h⟩ := (except_bind_ok _ _ _).mp h
    cases u1; cases u2; cases u3; cases u4; cases u6; cases u7
    simp only [pure, Except.pure, Except.ok.injEq] at h
    exact ⟨h1, h2, h3, h4, ki, h5, h6, h7, h.symm⟩
  · rintro ⟨h1, h2, h3, h4, ki, h5, h6, h7, rfl⟩
    rw [toFfmpegArgs, h1, h2, h3, h4, h5]
    simp only [Bind.bind, Except.bind, h6, h7]
    rfl

/-- An error anywhere in the pipeline's prefix propagates. -/
theorem except_bind_error {ε α β : Type} (x : Except ε α) (f : α → Except ε β) (e : ε)
    (h : x = .error e) : (x >>= f) = .error e := by
  subst h; rfl

theorem not_mem_of_lookup_none {α β : Type} [BEq α] [LawfulBEq α]
    {tbl : List (α × β)} {a : α} (h : tbl.lookup a = none) : ∀ b, (a, b) ∉ tbl := by
  induction tbl with
  | nil => simp
  | cons p t ih =>
    obtain ⟨k, v⟩ := p
    intro b hb
    rw [List.lookup_cons] at h
    rcases List.mem_cons.mp hb with he | ht
    · cases he
      simp at h
    · by_cases hk : (a == k) = true
      · simp only [hk] at h
        exact absurd h (by simp)
      · simp only [Bool.not_eq_true] at hk
        simp only [hk] at h
        exact ih h b ht

theorem findReserved_eq_none_iff (tbl : List (Str × Str)) (args : List Str) :
    findReserved tbl args = none ↔ ∀ a ∈ args, tbl.lookup a = none := by
  rw [findReserved, List.findSome?_eq_none_iff]
  constructor
  · intro h a ha
    have := h a ha
    cases hl : tbl.lookup a with
    | none => rfl
    | some v => rw [hl] at this; simp at this
  · intro h a ha
    rw [h a ha]; rfl

theorem findReserved_some (tbl : List (Str × Str)) (args : List Str) (f hint : Str)
    (h : findReserved tbl args = some (f, hint)) :
    f ∈ args ∧ tbl.lookup f = some hint := by
  rw [findReserved] at h
  obtain ⟨a, ha, hfa⟩ := List.exists_of_findSome?_eq_some h
  cases hl : tbl.lookup a with
  | none => rw [hl] at hfa; simp [Option.map] at hfa
  | some v =>
    rw [hl] at hfa
    simp only [Option.map, Option.some.injEq, Prod.mk.injEq] at hfa
    obtain ⟨rfl, rfl⟩ := hfa
    exact ⟨ha, hl⟩

/-! ## C1 -/

/-- C1: whenever the resolver succeeds, no flag of the input deny-list is
in the resolved input arguments and no flag of the (extended) output
deny-list is in the resolved output arguments; and when every earlier stage
passes but the flattened arguments hit the deny-list, the resolver fails
with the message naming the first offending flag together with its
dedicated-option hint (the hint being exactly the deny-table entry for that
flag). -/
theorem toFfmpegArgs_reserved_flags (cfg : EncodeCfg) (crf : ℚ) (probe : Ffprobe)
    (env : Env) :
    (∀ r, toFfmpegArgs cfg crf probe env = .ok r →
      (∀ flag hint, (flag, hint) ∈ inputReserved → flag ∉ r.inputArgs) ∧
      (∀ flag hint, (flag, hint) ∈ outputReserved → flag ∉ r.outputArgs)) ∧
    (∀ flag hint ki, checkCudaDecoder env cfg = .ok () → autocropStage env cfg = .ok () →
      svtGate cfg = .ok () → validateCudaConfig env cfg = .ok () →
      keyintOf cfg probe env.parseFrameRate = .ok ki →
      findReserved inputReserved (inputArgsOf cfg) = some (flag, hint) →
      flag ∈ inputArgsOf cfg ∧ inputReserved.lookup flag = some hint ∧
        toFfmpegArgs cfg crf probe env = .error (notAllowedMsg flag hint)) ∧
    (∀ flag hint ki, checkCudaDecoder env cfg = .ok () → autocropStage env cfg = .ok () →
      svtGate cfg = .ok () → validateCudaConfig env cfg = .ok () →
      keyintOf cfg probe env.parseFrameRate = .ok ki →
      findReserved inputReserved (inputArgsOf cfg) = none →
      findReserved outputReserved (outputArgsOf cfg ki) = some (flag, hint) →
      flag ∈ outputArgsOf cfg ki ∧ outputReserved.lookup flag = some hint ∧
        toFfmpegArgs cfg crf probe env = .error (notAllowedMsg flag hint)) := by
  refine ⟨?_, ?_, ?_⟩
  · intro r h
    obtain ⟨-, -, -, -, ki, -, h6, h7, rfl⟩ := (toFfmpegArgs_ok_iff _ _ _ _ _).mp h
    rw [checkReserved] at h6 h7
    constructor
    · intro flag hint hmem hin
      rcases hf : findReserved inputReserved (inputArgsOf cfg) with - | fh
      · have := ((findReserved_eq_none_iff _ _).mp hf) flag hin
        exact absurd hmem (not_mem_of_lookup_none this hint)
      · rw [hf] at h6; simp at h6
    · intro flag hint hmem hout
      rcases hf : findReserved outputReserved (outputArgsOf cfg ki) with - | fh
      · have := ((findReserved_eq_none_iff _ _).mp hf) flag hout
        exact absurd hmem (not_mem_of_lookup_none this hint)
      · rw [hf] at h7; simp at h7
  · intro flag hint ki h1 h2 h3 h4 h5 hf
    obtain ⟨hmem, hlk⟩ := findReserved_some _ _ _ _ hf
    refine ⟨hmem, hlk, ?_⟩
    rw [toFfmpegArgs, h1, h2, h3, h4, h5]
    simp only [Bind.bind, Except.bind]
    rw [checkReserved, hf]
  · intro flag hint ki h1 h2 h3 h4 h5 hfi hf
    obtain ⟨hmem, hlk⟩ := findReserved_some _ _ _ _ hf
    refine ⟨hmem, hlk, ?_⟩
    rw [toFfmpegArgs, h1, h2, h3, h4, h5]
    simp only [Bind.bind, Except.bind]
    rw [checkReserved, hfi, checkReserved, hf]

/-- A configuration whose flattened input arguments contain the reserved
`-vf` flag (all stages before the deny check pass). -/
def vfClashCfg : EncodeCfg :=
  { encoder := "libx264".data, input := "vid.mp4".data, vfilter := none,
    pixFormat := none, preset := none, keyint := none, scd := none,
    svtArgs := [], encArgs := [], encInputArgs := ["-vf=scale=100:-1".data],
    cudaDecoder := none, cudaFilters := [], cudaScalingMethod := "lanczos".data,
    cudaSurfaces := 16, vmafPath := "vmaf".data, vmafCuda := false,
    vmafModel := "vmaf_v0.6.1.json".data, vmafSurfaces := 16 }

def plainProbe : Ffprobe :=
  { duration := .error "unavailable".data, hasAudio := false, maxAudioChannels := none,
    fps := .error "unavailable".data, resolution := none, isImage := false, pixFmt := none }

def plainEnv : Env :=
  { cuvidDecoders := .ok [], cropDetect := .ok [], parseFrameRate := fun _ => none }

/-- Witness for C1: an `--enc-input vf=…` configuration is rejected with the
message naming `-vf` and pointing at `--vfilter`. -/
theorem toFfmpegArgs_reserved_flags_witness :
    "-vf".data ∈ inputArgsOf vfClashCfg ∧
    inputReserved.lookup "-vf".data = some " use --vfilter".data ∧
    toFfmpegArgs vfClashCfg 32 plainProbe plainEnv =
      .error (notAllowedMsg "-vf".data " use --vfilter".data) :=
  (toFfmpegArgs_reserved_flags vfClashCfg 32 plainProbe plainEnv).2.1 _ _ none
    (by decide) (by decide) (by decide) (by decide) (by decide) (by decide)

/-! ## C4 -/

/-- C4: with a requested CUDA decoder and a successfully queried decoder
list: an absent decoder fails with the message naming it and listing the
available decoders; an out-of-range surface count (the decoder being
available and the intervening autocrop/`--svt` stages passing) fails with
the message echoing the value; an available decoder with a surface count in
[8, 32] passes both CUDA checks. -/
theorem toFfmpegArgs_cuda_validation (cfg : EncodeCfg) (crf : ℚ) (probe : Ffprobe)
    (env : Env) (d : Str) (avail : List Str)
    (hd : cfg.cudaDecoder = some d) (ha : env.cuvidDecoders = .ok avail) :
    (d ∉ avail → toFfmpegArgs cfg crf probe env = .error (cuvidUnavailableMsg d avail)) ∧
    (d ∈ avail → autocropStage env cfg = .ok () → svtGate cfg = .ok () →
      ¬(8 ≤ cfg.cudaSurfaces ∧ cfg.cudaSurfaces ≤ 32) →
      toFfmpegArgs cfg crf probe env = .error (surfacesMsg cfg.cudaSurfaces)) ∧
    (d ∈ avail → 8 ≤ cfg.cudaSurfaces → cfg.cudaSurfaces ≤ 32 →
      checkCudaDecoder env cfg = .ok () ∧ validateCudaConfig env cfg = .ok ()) := by
  have hchk : checkCudaDecoder env cfg =
      if d ∈ avail then .ok () else .error (cuvidUnavailableMsg d avail) := by
    simp only [checkCudaDecoder, hd, ha, Bind.bind, Except.bind]
  have hval : validateCudaConfig env cfg =
      if d ∈ avail then
        (if 8 ≤ cfg.cudaSurfaces ∧ cfg.cudaSurfaces ≤ 32 then .ok ()
         else .error (surfacesMsg cfg.cudaSurfaces))
      else .error (cuvidUnavailableMsg d avail) := by
    simp only [validateCudaConfig, hd, ha, Bind.bind, Except.bind]
  refine ⟨?_, ?_, ?_⟩
  · intro hnot
    rw [toFfmpegArgs]
    exact except_bind_error _ _ _ (by rw [hchk, if_neg hnot])
  · intro hin hauto hsvt hrange
    have hc1 : checkCudaDecoder env cfg = .ok () := by rw [hchk, if_pos hin]
    have hv : validateCudaConfig env cfg = .error (surfacesMsg cfg.cudaSurfaces) := by
      rw [hval, if_pos hin, if_neg hrange]
    rw [toFfmpegArgs, hc1, hauto, hsvt, hv]
    rfl
  · intro hin h8 h32
    refine ⟨by rw [hchk, if_pos hin], ?_⟩
    rw [hval, if_pos hin, if_pos ⟨h8, h32⟩]

/-- A configuration requesting a CUDA decoder that the tool does not list. -/
def missingDecoderCfg : EncodeCfg :=
  { encoder := "libsvtav1".data, input := "vid.mp4".data, vfilter := none,
    pixFormat := none, preset := none, keyint := none, scd := none,
    svtArgs := [], encArgs := [], encInputArgs := [],
    cudaDecoder := some "av1_cuvid".data, cudaFilters := [],
    cudaScalingMethod := "lanczos".data, cudaSurfaces := 16,
    vmafPath := "vmaf".data, vmafCuda := false,
    vmafModel := "vmaf_v0.6.1.json".data, vmafSurfaces := 16 }

def cuvidListEnv : Env :=
  { cuvidDecoders := .ok ["h264_cuvid".data, "hevc_cuvid".data], cropDetect := .ok [],
    parseFrameRate := fun _ => none }

/-- Witness for C4: requesting `av1_cuvid` when only `h264_cuvid` and
`hevc_cuvid` are reported fails with the message naming it and listing
them; and the passing side at surface count 16. -/
theorem toFfmpegArgs_cuda_validation_witness :
    toFfmpegArgs missingDecoderCfg 32 plainProbe cuvidListEnv =
      .error (cuvidUnavailableMsg "av1_cuvid".data
        ["h264_cuvid".data, "hevc_cuvid".data]) ∧
    (checkCudaDecoder { cuvidListEnv with
        cuvidDecoders := .ok ["av1_cuvid".data] } missingDecoderCfg = .ok () ∧
      validateCudaConfig { cuvidListEnv with
        cuvidDecoders := .ok ["av1_cuvid".data] } missingDecoderCfg = .ok ()) :=
  ⟨(toFfmpegArgs_cuda_validation missingDecoderCfg 32 plainProbe cuvidListEnv
      "av1_cuvid".data _ rfl rfl).1 (by decide),
   (toFfmpegArgs_cuda_validation missingDecoderCfg 32 plainProbe _
      "av1_cuvid".data _ rfl rfl).2.2 (by decide) (by decide) (by decide)⟩

/-! ## C5 -/

/-- C5 counterexample: for the concrete CUDA filter list `["scale=100:200"]`
the produced chain is the double-wrapped string below; the configured CUDA
scaling (interpolation) method is not embedded (no `interp_algo`, and the
default method name `lanczos` never occurs for any configuration, since the
chain depends only on the filter list), and the download/format/upload
bracket occurs twice, not once. -/
theorem cudaFilterChain_not_single_bracket :
    cudaFilterChain ["scale=100:200".data] =
      "hwdownload,format=nv12,hwdownload,format=nv12,scale_cuda=format=nv12:100:200,hwupload_cuda,hwupload_cuda".data ∧
    countSub (cudaFilterChain ["scale=100:200".data]) "hwdownload,format=nv12,".data = 2 ∧
    countSub (cudaFilterChain ["scale=100:200".data]) "hwupload_cuda".data = 2 ∧
    strContains (cudaFilterChain ["scale=100:200".data]) "interp_algo".data = false ∧
    strContains (cudaFilterChain ["scale=100:200".data]) "lanczos".data = false := by
  refine ⟨by decide, by decide, by decide, by decide, by decide⟩

/-- C5 amended: for every active-decoder configuration with a non-empty
CUDA filter list, the chain comma-joins the filter tokens, prefixes each
`crop=` with a hardware-upload step, rewrites each `scale=` to
`scale_cuda=format=nv12:` (fixed nv12 format, no interpolation method
embedded), and wraps the result **twice** — not once — in the
`hwdownload,format=nv12,…,hwupload_cuda` bracket. -/
theorem cudaFilterChain_closed_form (filters : List Str) (h : filters ≠ []) :
    cudaFilterChain filters =
      "hwdownload,format=nv12,hwdownload,format=nv12,".data ++
        listReplace
          (listReplace (intercal ",".data filters) "crop=".data "hwupload_cuda,crop=".data)
          "scale=".data "scale_cuda=format=nv12:".data ++
        ",hwupload_cuda,hwupload_cuda".data := by
  simp only [cudaFilterChain, if_neg h]
  simp [List.append_assoc]

/-- Witness for C5 at a crop and a scale token. -/
theorem cudaFilterChain_closed_form_witness :
    (["crop=1920:800:0:140".data, "scale=1280:720".data] : List Str) ≠ [] ∧
    cudaFilterChain ["crop=1920:800:0:140".data, "scale=1280:720".data] =
      "hwdownload,format=nv12,hwdownload,format=nv12,".data ++
        listReplace
          (listReplace (intercal ",".data ["crop=1920:800:0:140".data, "scale=1280:720".data])
            "crop=".data "hwupload_cuda,crop=".data)
          "scale=".data "scale_cuda=format=nv12:".data ++
        ",hwupload_cuda,hwupload_cuda".data :=
  ⟨by decide, cudaFilterChain_closed_form _ (by decide)⟩

/-! ## C2 -/

/-- A configuration with an available CUDA decoder and a non-empty CUDA
filter list. -/
def cudaDropCfg : EncodeCfg :=
  { encoder := "libsvtav1".data, input := "vid.mp4".data, vfilter := none,
    pixFormat := none, preset := none, keyint := none, scd := none,
    svtArgs := [], encArgs := [], encInputArgs := [],
    cudaDecoder := some "h264_cuvid".data, cudaFilters := ["scale=1280:720".data],
    cudaScalingMethod := "lanczos".data, cudaSurfaces := 16,
    vmafPath := "vmaf".data, vmafCuda := false,
    vmafModel := "vmaf_v0.6.1.json".data, vmafSurfaces := 16 }

def cudaDropEnv : Env :=
  { cuvidDecoders := .ok ["h264_cuvid".data], cropDetect := .ok [],
    parseFrameRate := fun _ => none }

/-- C2 (code bug): at this configuration the resolver succeeds and a
non-empty CUDA filter chain is produced, whose merge with the user filter
(`mergedVfilter`, the value computed at lines 395–403) contains
`hwupload_cuda` — yet the returned argument set's filter expression is the
user's `vfilter` unchanged (`none` here), because the construction at line
465 uses `self.vfilter.as_deref()` and drops the merged local.  The
in-file test `test_cuda_pipeline` asserts the returned `vfilter` contains
`hwupload_cuda`, which this run refutes. -/
theorem toFfmpegArgs_drops_cuda_vfilter :
    Except.map FfmpegEncodeArgs.vfilter (toFfmpegArgs cudaDropCfg 32 plainProbe cudaDropEnv) =
      .ok none ∧
    cudaChainOf cudaDropCfg ≠ [] ∧
    mergedVfilter cudaDropCfg = cudaChainOf cudaDropCfg ∧
    strContains (mergedVfilter cudaDropCfg) "hwupload_cuda".data = true := by
  refine ⟨by decide, by decide, by decide, by decide⟩

/-! ## C8 -/

theorem splitOnceChar_cons_head {c x : Char} {xs opt val : Str}
    (hx : x ≠ c) (h : splitOnceChar c (x :: xs) = some (opt, val)) :
    ∃ o, opt = x :: o := by
  simp only [splitOnceChar, if_neg hx] at h
  cases hsp : splitOnceChar c xs with
  | none => rw [hsp] at h; simp [Option.map] at h
  | some p =>
    rw [hsp] at h
    simp only [Option.map, Option.some.injEq, Prod.mk.injEq] at h
    exact ⟨p.1, h.1.symm⟩

/-- A dash-initial `--enc` argument is never folded into `svtav1_params`. -/
theorem encArgFold_dash (t : Str) : encArgFold ('-' :: t) = [] := by
  rw [encArgFold]
  cases hsp : splitOnceChar '=' ('-' :: t) with
  | none => rfl
  | some p =>
    obtain ⟨opt, val⟩ := p
    obtain ⟨o, rfl⟩ := splitOnceChar_cons_head (by decide) hsp
    dsimp only
    rw [if_neg]
    intro hcon
    injection hcon with h1 _
    exact absurd h1 (by decide)

theorem intToStr_ne_dash_cons (k : Int) (c : Char) (t : Str)
    (hc : ¬(48 ≤ c.toNat ∧ c.toNat ≤ 57)) : intToStr k ≠ '-' :: c :: t := by
  rw [intToStr]
  split_ifs with h
  · intro he
    injection he with _ h2
    have hs : c ∈ natToStr (-k).toNat := by rw [h2]; exact List.mem_cons_self _ _
    exact hc (digit_mem_natToStr hs)
  · intro he
    have hs : '-' ∈ natToStr k.toNat := by rw [he]; exact List.mem_cons_self _ _
    exact absurd (digit_mem_natToStr hs) (by decide)

theorem addDefaults_append (defaults : List (Str × Str)) :
    ∀ args : List Str, ∃ t, addDefaults args defaults = args ++ t ∧
      ∀ x ∈ t, ∃ p ∈ defaults, x = p.1 ∨ x = p.2 := by
  induction defaults with
  | nil => intro args; exact ⟨[], by simp [addDefaults], by simp⟩
  | cons p ds ih =>
    intro args
    rw [addDefaults, List.foldl_cons]
    by_cases hp : p.1 ∈ args
    · rw [if_pos hp]
      obtain ⟨t, ht, hmem⟩ := ih args
      rw [addDefaults] at ht
      exact ⟨t, ht, fun x hx =>
        (hmem x hx).elim fun q hq => ⟨q, List.mem_cons_of_mem _ hq.1, hq.2⟩⟩
    · rw [if_neg hp]
      obtain ⟨t, ht, hmem⟩ := ih (args ++ [p.1, p.2])
      rw [addDefaults] at ht
      refine ⟨[p.1, p.2] ++ t, by rw [ht, List.append_assoc], ?_⟩
      intro x hx
      rcases List.mem_append.mp hx with hx | hx
      · rcases List.mem_cons.mp hx with rfl | hx
        · exact ⟨p, List.mem_cons_self _ _, Or.inl rfl⟩
        · rcases List.mem_cons.mp hx with rfl | hx
          · exact ⟨p, List.mem_cons_self _ _, Or.inr rfl⟩
          · simp at hx
      · exact (hmem x hx).elim fun q hq => ⟨q, List.mem_cons_of_mem _ hq.1, hq.2⟩

theorem defaultFfmpegArgs_ne_svtparams (vcodec : Str) :
    ∀ p ∈ defaultFfmpegArgs vcodec,
      p.1 ≠ "-svtav1-params".data ∧ p.2 ≠ "-svtav1-params".data := by
  intro p hp
  rw [defaultFfmpegArgs] at hp
  split_ifs at hp
  · simp only [List.mem_singleton] at hp
    subst hp; exact ⟨by decide, by decide⟩
  · rcases List.mem_cons.mp hp with rfl | hp
    · exact ⟨by decide, by decide⟩
    · rcases List.mem_cons.mp hp with rfl | hp
      · exact ⟨by decide, by decide⟩
      · rcases List.mem_cons.mp hp with rfl | hp
        · exact ⟨by decide, by decide⟩
        · simp at hp
  · simp at hp

/-- For a non-default encoder with dash-initial `--enc` arguments, the
resolved output arguments are the flattened user arguments followed by a
resolver-generated tail that never contains `-svtav1-params`. -/
theorem outputArgsOf_nonsvt (cfg : EncodeCfg) (henc : cfg.encoder ≠ "libsvtav1".data)
    (hdash : ∀ a ∈ cfg.encArgs, ∃ t, a = '-' :: t) (ki : Option Int) :
    ∃ tail, outputArgsOf cfg ki = (encArgsFlatten cfg.encArgs).1 ++ tail ∧
      "-svtav1-params".data ∉ tail := by
  have hfold : (encArgsFlatten cfg.encArgs).2 = [] := by
    rw [encArgsFlatten]
    rw [List.flatMap_eq_nil_iff]
    intro a ha
    obtain ⟨t, rfl⟩ := hdash a ha
    exact encArgFold_dash t
  have hsp : svtParamsList cfg ki = [] := by
    rw [svtParamsList, if_neg henc, List.nil_append, hfold]
  have ha1 : outputArgs1 cfg ki = (encArgsFlatten cfg.encArgs).1 := by
    rw [outputArgs1, if_pos hsp]
  have hextra : ∀ textra : List Str,
      (∀ x ∈ textra, ∃ p ∈ defaultFfmpegArgs cfg.encoder, x = p.1 ∨ x = p.2) →
      "-svtav1-params".data ∉ textra := by
    intro textra hmem hx
    obtain ⟨p, hp, heq⟩ := hmem _ hx
    have := defaultFfmpegArgs_ne_svtparams cfg.encoder p hp
    rcases heq with heq | heq
    · exact this.1 heq.symm
    · exact this.2 heq.symm
  cases ki with
  | none =>
    rw [outputArgsOf]
    simp only [outputArgs2]
    rw [ha1]
    obtain ⟨textra, hext, hmem⟩ :=
      addDefaults_append (defaultFfmpegArgs cfg.encoder) (encArgsFlatten cfg.encArgs).1
    exact ⟨textra, hext, hextra textra hmem⟩
  | some k =>
    rw [outputArgsOf]
    simp only [outputArgs2]
    rw [ha1]
    by_cases hg : "-g".data ∈ (encArgsFlatten cfg.encArgs).1
    · rw [if_pos hg]
      obtain ⟨textra, hext, hmem⟩ :=
        addDefaults_append (defaultFfmpegArgs cfg.encoder) (encArgsFlatten cfg.encArgs).1
      exact ⟨textra, hext, hextra textra hmem⟩
    · rw [if_neg hg]
      obtain ⟨textra, hext, hmem⟩ := addDefaults_append (defaultFfmpegArgs cfg.encoder)
        ((encArgsFlatten cfg.encArgs).1 ++ ["-g".data, intToStr k])
      refine ⟨["-g".data, intToStr k] ++ textra, by rw [hext, List.append_assoc], ?_⟩
      intro hx
      rcases List.mem_append.mp hx with hx | hx
      · rcases List.mem_cons.mp hx with he | hx
        · exact absurd he.symm (by decide)
        · rcases List.mem_cons.mp hx with he | hx
          · exact absurd he.symm (intToStr_ne_dash_cons k 's' "vtav1-params".data (by decide))
          · simp at hx
      · exact hextra textra hmem hx

/-- C8: for a non-svt-av1 encoder, a non-empty `--svt` list makes the
resolver fail with the wrong-encoder error (once the two stages running
before the gate pass); and on success the resolved output arguments are the
flattened user `--enc` arguments (dash-initial, as produced by
`parse_enc_arg`) followed by a resolver tail that never contains a
`-svtav1-params` argument. -/
theorem toFfmpegArgs_non_svt (cfg : EncodeCfg) (crf : ℚ) (probe : Ffprobe) (env : Env)
    (henc : cfg.encoder ≠ "libsvtav1".data) :
    (cfg.svtArgs ≠ [] → checkCudaDecoder env cfg = .ok () → autocropStage env cfg = .ok () →
      toFfmpegArgs cfg crf probe env = .error svtGateMsg) ∧
    (∀ r, toFfmpegArgs cfg crf probe env = .ok r →
      (∀ a ∈ cfg.encArgs, ∃ t, a = '-' :: t) →
      ∃ tail, r.outputArgs = (encArgsFlatten cfg.encArgs).1 ++ tail ∧
        "-svtav1-params".data ∉ tail) := by
  constructor
  · intro hsvt hc1 hauto
    have hg : svtGate cfg = .error svtGateMsg := by
      rw [svtGate, if_neg (not_or.mpr ⟨henc, hsvt⟩)]
    rw [toFfmpegArgs, hc1, hauto, hg]
    rfl
  · intro r h hdash
    obtain ⟨-, -, -, -, ki, -, -, -, rfl⟩ := (toFfmpegArgs_ok_iff _ _ _ _ _).mp h
    exact outputArgsOf_nonsvt cfg henc hdash ki

/-- A non-svt encoder given `--svt` arguments. -/
def svtMisuseCfg : EncodeCfg :=
  { encoder := "libx264".data, input := "vid.mp4".data, vfilter := none,
    pixFormat := none, preset := none, keyint := none, scd := none,
    svtArgs := ["film-grain=8".data], encArgs := [], encInputArgs := [],
    cudaDecoder := none, cudaFilters := [], cudaScalingMethod := "lanczos".data,
    cudaSurfaces := 16, vmafPath := "vmaf".data, vmafCuda := false,
    vmafModel := "vmaf_v0.6.1.json".data, vmafSurfaces := 16 }

/-- Witness for C8: `--svt film-grain=8` with libx264 fails with the
wrong-encoder error. -/
theorem toFfmpegArgs_non_svt_witness :
    toFfmpegArgs svtMisuseCfg 32 plainProbe plainEnv = .error svtGateMsg :=
  (toFfmpegArgs_non_svt svtMisuseCfg 32 plainProbe plainEnv (by decide)).1
    (by decide) (by decide) (by decide)

/-! ## C3 -/

theorem pre_head_ne {c c' : Char} {a t v : Str} (h : (c :: a) <+: v) (hcc : c ≠ c') :
    v ≠ c' :: t := by
  obtain ⟨s, hs⟩ := h
  rw [← hs, List.cons_append]
  intro he
  injection he with h1 _
  exact hcc h1

/-- With no explicit interval and a resolved duration, `Encode::keyint`
returns the 10-second default converted through the filter fps (when one
parses) or else the probed fps, for durations of at least 180 seconds, and
nothing for shorter inputs. -/
theorem keyintOf_default (cfg : EncodeCfg) (probe : Ffprobe) (pfr : Str → Option ℚ)
    (hki : cfg.keyint = none) (d : ℚ) (hd : probe.duration = .ok d) :
    (∀ f, cfg.vfilter.bind (tryParseFpsVfilter pfr) = some f →
      keyintOf cfg probe pfr =
        if (180 : ℚ) ≤ d then .ok (some (i32sat (rustRound (ratMul 10 f)))) else .ok none) ∧
    (cfg.vfilter.bind (tryParseFpsVfilter pfr) = none → ∀ f, probe.fps = .ok f →
      keyintOf cfg probe pfr =
        if (180 : ℚ) ≤ d then .ok (some (i32sat (rustRound (ratMul 10 f)))) else .ok none) := by
  constructor
  · intro f hff
    rcases hfp : probe.fps with e | f0 <;>
      simp [keyintOf, hki, hd, hff, hfp, keyintDefaultInputMin, keyintDefault,
        keyintNumber, Except.map]
  · intro hff f hfp
    simp [keyintOf, hki, hd, hff, hfp, keyintDefaultInputMin, keyintDefault,
      keyintNumber, Except.map]

/-- C3: for an svt-av1 configuration with no explicit keyframe interval, no
explicit scene-change flag, a resolved probe duration and no user-supplied
`-g` among the flattened `--enc` arguments: when the duration is ≥ 180 s
and a frame rate resolves (`fps=` filter first, probed rate otherwise), the
resolved output arguments contain the adjacent pair `-g round(10·fps)` and
the `-svtav1-params` value begins with `scd=1`; when the duration is
< 180 s, no `-g` flag is present and the value begins with `scd=0`. -/
theorem toFfmpegArgs_svt_keyint_defaults (cfg : EncodeCfg) (crf : ℚ) (probe : Ffprobe)
    (env : Env) (r : FfmpegEncodeArgs)
    (hok : toFfmpegArgs cfg crf probe env = .ok r)
    (henc : cfg.encoder = "libsvtav1".data)
    (hki : cfg.keyint = none) (hscd : cfg.scd = none)
    (hg : "-g".data ∉ (encArgsFlatten cfg.encArgs).1)
    (d : ℚ) (hd : probe.duration = .ok d) :
    (∀ f : ℚ,
      (cfg.vfilter.bind (tryParseFpsVfilter env.parseFrameRate) = some f ∨
        (cfg.vfilter.bind (tryParseFpsVfilter env.parseFrameRate) = none ∧
          probe.fps = .ok f)) →
      (180 : ℚ) ≤ d →
      ["-g".data, intToStr (i32sat (rustRound (ratMul 10 f)))] <:+: r.outputArgs ∧
      ∃ v, ["-svtav1-params".data, v] <:+: r.outputArgs ∧ "scd=1".data <+: v) ∧
    (d < 180 →
      "-g".data ∉ r.outputArgs ∧
      ∃ v, ["-svtav1-params".data, v] <:+: r.outputArgs ∧ "scd=0".data <+: v) := by
  obtain ⟨-, -, -, -, ki, hki5, -, -, rfl⟩ := (toFfmpegArgs_ok_iff _ _ _ _ _).mp hok
  have hscds : ∀ s : Nat, "scd=".data ++ natToStr s = 's' :: ("cd=".data ++ natToStr s) :=
    fun _ => rfl
  have hdef : defaultFfmpegArgs cfg.encoder = [] := by rw [henc]; decide
  -- the `-svtav1-params` value for scene-change flag s
  have hv : ∀ s : Nat, ("scd=".data ++ natToStr s) <+:
      intercal ":".data (("scd=".data ++ natToStr s) ::
        (cfg.svtArgs ++ (encArgsFlatten cfg.encArgs).2)) :=
    fun s => intercal_cons_pre _ _ _
  have hargs1 : ∀ s : Nat, "-g".data ∉
      (encArgsFlatten cfg.encArgs).1 ++ ["-svtav1-params".data,
        intercal ":".data (("scd=".data ++ natToStr s) ::
          (cfg.svtArgs ++ (encArgsFlatten cfg.encArgs).2))] := by
    intro s hx
    rcases List.mem_append.mp hx with hx | hx
    · exact hg hx
    · rcases List.mem_cons.mp hx with he | hx
      · exact absurd he (by decide)
      · rcases List.mem_cons.mp hx with he | hx
        · exact pre_head_ne (hscds s ▸ hv s) (by decide) he.symm
        · simp at hx
  have hscd1 : ∀ k : Int, scdFlag cfg (some k) = 1 := by
    intro k
    rw [scdFlag, if_pos (Or.inr ⟨hki, rfl⟩)]
  have hscd0 : scdFlag cfg none = 0 := by
    rw [scdFlag, if_neg]
    rintro (h | ⟨-, h2⟩)
    · rw [hscd] at h; exact Option.noConfusion h
    · simp at h2
  have ha1s : ∀ k : Int, outputArgs1 cfg (some k) =
      (encArgsFlatten cfg.encArgs).1 ++ ["-svtav1-params".data,
        intercal ":".data (("scd=".data ++ natToStr 1) ::
          (cfg.svtArgs ++ (encArgsFlatten cfg.encArgs).2))] := by
    intro k
    have hsp1 : svtParamsList cfg (some k) =
        ("scd=".data ++ natToStr 1) :: (cfg.svtArgs ++ (encArgsFlatten cfg.encArgs).2) := by
      rw [svtParamsList, if_pos henc, hscd1, List.cons_append]
    rw [outputArgs1, hsp1, if_neg (List.cons_ne_nil _ _)]
  have ha1n : outputArgs1 cfg none =
      (encArgsFlatten cfg.encArgs).1 ++ ["-svtav1-params".data,
        intercal ":".data (("scd=".data ++ natToStr 0) ::
          (cfg.svtArgs ++ (encArgsFlatten cfg.encArgs).2))] := by
    have hsp0 : svtParamsList cfg none =
        ("scd=".data ++ natToStr 0) :: (cfg.svtArgs ++ (encArgsFlatten cfg.encArgs).2) := by
      rw [svtParamsList, if_pos henc, hscd0, List.cons_append]
    rw [outputArgs1, hsp0, if_neg (List.cons_ne_nil _ _)]
  have houtSome : ∀ k : Int, outputArgsOf cfg (some k) =
      (encArgsFlatten cfg.encArgs).1 ++ ["-svtav1-params".data,
        intercal ":".data (("scd=".data ++ natToStr 1) ::
          (cfg.svtArgs ++ (encArgsFlatten cfg.encArgs).2))] ++
        ["-g".data, intToStr k] := by
    intro k
    rw [outputArgsOf, hdef]
    simp only [addDefaults, List.foldl_nil, outputArgs2]
    rw [ha1s k, if_neg (hargs1 1)]
  have houtNone : outputArgsOf cfg none =
      (encArgsFlatten cfg.encArgs).1 ++ ["-svtav1-params".data,
        intercal ":".data (("scd=".data ++ natToStr 0) ::
          (cfg.svtArgs ++ (encArgsFlatten cfg.encArgs).2))] := by
    rw [outputArgsOf, hdef]
    simp only [addDefaults, List.foldl_nil, outputArgs2]
    rw [ha1n]
  constructor
  · intro f hf h180
    have hkival : ki = some (i32sat (rustRound (ratMul 10 f))) := by
      have hcomp := keyintOf_default cfg probe env.parseFrameRate hki d hd
      rcases hf with hff | ⟨hff, hfp⟩
      · have := (hcomp.1 f hff).symm.trans hki5
        rw [if_pos h180] at this
        injection this with h
        exact h.symm
      · have := (hcomp.2 hff f hfp).symm.trans hki5
        rw [if_pos h180] at this
        injection this with h
        exact h.symm
    subst hkival
    simp only [resolvedResult, houtSome]
    constructor
    · exact (List.suffix_append _ _).isInfix
    · refine ⟨intercal ":".data (("scd=".data ++ natToStr 1) ::
        (cfg.svtArgs ++ (encArgsFlatten cfg.encArgs).2)), ?_, ?_⟩
      · exact ((List.suffix_append (encArgsFlatten cfg.encArgs).1 _).isInfix).trans
          (List.prefix_append _ _).isInfix
      · exact hv 1
  · intro hlt
    have hkival : ki = none := by
      have hcomp := keyintOf_default cfg probe env.parseFrameRate hki d hd
      have hnot : ¬((180 : ℚ) ≤ d) := not_le.mpr hlt
      rcases hff : cfg.vfilter.bind (tryParseFpsVfilter env.parseFrameRate) with - | f
      · rcases hfp : probe.fps with e | f0
        · -- no filter fps, no probed fps: the catch-all arm gives none
          have : keyintOf cfg probe env.parseFrameRate = .ok none := by
            simp [keyintOf, hki, hd, hff, hfp]
          have h2 := this.symm.trans hki5
          injection h2 with h; exact h.symm
        · have := (hcomp.2 hff f0 hfp).symm.trans hki5
          rw [if_neg hnot] at this
          injection this with h; exact h.symm
      · have := (hcomp.1 f hff).symm.trans hki5
        rw [if_neg hnot] at this
        injection this with h; exact h.symm
    subst hkival
    simp only [resolvedResult, houtNone]
    constructor
    · intro hx
      exact hargs1 0 hx
    · refine ⟨intercal ":".data (("scd=".data ++ natToStr 0) ::
        (cfg.svtArgs ++ (encArgsFlatten cfg.encArgs).2)), ?_, ?_⟩
      · exact (List.suffix_append _ _).isInfix
      · exact hv 0

/-- The over-3-minutes scenario of the in-file test
`svtav1_to_ffmpeg_args_default_over_3m`. -/
def svtOver3mCfg : EncodeCfg :=
  { encoder := "libsvtav1".data, input := "vid.mp4".data,
    vfilter := some "scale=320:-1,fps=film".data,
    pixFormat := none, preset := none, keyint := none, scd := none,
    svtArgs := ["film-grain=30".data], encArgs := [], encInputArgs := [],
    cudaDecoder := none, cudaFilters := [], cudaScalingMethod := "lanczos".data,
    cudaSurfaces := 16, vmafPath := "vmaf".data, vmafCuda := false,
    vmafModel := "vmaf_v0.6.1.json".data, vmafSurfaces := 16 }

def svtOver3mProbe : Ffprobe :=
  { duration := .ok 300, hasAudio := true, maxAudioChannels := none,
    fps := .ok 30, resolution := some (1280, 720), isImage := false, pixFmt := none }

def svtOver3mR : FfmpegEncodeArgs :=
  { input := "vid.mp4".data, vcodec := "libsvtav1".data,
    pixFmt := some .yuv420p10le, vfilter := some "scale=320:-1,fps=film".data,
    crf := 32, preset := some "8".data,
    outputArgs := ["-svtav1-params".data, "scd=1:film-grain=30".data,
                   "-g".data, "240".data],
    inputArgs := [], videoOnly := false }

def svtUnder3mCfg : EncodeCfg :=
  { svtOver3mCfg with
    vfilter := none
    preset := some "7".data
    pixFormat := some PixelFormat.yuv420p
    svtArgs := [] }

def svtUnder3mProbe : Ffprobe :=
  { svtOver3mProbe with
    duration := .ok 179
    fps := .ok 24 }

def svtUnder3mR : FfmpegEncodeArgs :=
  { svtOver3mR with
    vfilter := none
    pixFmt := some PixelFormat.yuv420p
    preset := some "7".data
    outputArgs := ["-svtav1-params".data, "scd=0".data] }

/-- Witness for C3 at the two in-file test scenarios: the 300 s / `fps=film`
input gets `-g 240` (filter fps 24 beats probed 30) and `scd=1`; the 179 s
input gets no `-g` and `scd=0`. -/
theorem toFfmpegArgs_svt_keyint_defaults_witness :
    (["-g".data, intToStr (i32sat (rustRound (ratMul 10 24)))] <:+: svtOver3mR.outputArgs ∧
      ∃ v, ["-svtav1-params".data, v] <:+: svtOver3mR.outputArgs ∧ "scd=1".data <+: v) ∧
    ("-g".data ∉ svtUnder3mR.outputArgs ∧
      ∃ v, ["-svtav1-params".data, v] <:+: svtUnder3mR.outputArgs ∧ "scd=0".data <+: v) :=
  ⟨(toFfmpegArgs_svt_keyint_defaults svtOver3mCfg 32 svtOver3mProbe plainEnv svtOver3mR
      (by decide) rfl rfl rfl (by decide) 300 rfl).1 24 (Or.inl (by decide)) (by decide),
   (toFfmpegArgs_svt_keyint_defaults svtUnder3mCfg 32 svtUnder3mProbe plainEnv svtUnder3mR
      (by decide) rfl rfl rfl (by decide) 179 rfl).2 (by decide)⟩

/-! ## C7 -/

theorem lavfiWithModel_none_res (cfg : VmafCfg) (par : Option Nat) :
    lavfiWithModel cfg par none =
      (lavfiBase cfg par, vmafModelFromArgs (lavfiArgs cfg par)) := by
  rcases hm : vmafModelFromArgs (lavfiArgs cfg par) with - | m <;>
    simp [lavfiWithModel, hm]

theorem lavfiWithModel_some_model (cfg : VmafCfg) (par : Option Nat)
    (res : Option (Nat × Nat)) (m : VmafModel)
    (hm : vmafModelFromArgs (lavfiArgs cfg par) = some m) :
    lavfiWithModel cfg par res = (lavfiBase cfg par, some m) := by
  rcases res with - | ⟨w, h⟩ <;> simp [lavfiWithModel, hm]

theorem lavfiWithModel_promote (cfg : VmafCfg) (par : Option Nat) {w h : Nat}
    (hmf : vmafModelFromArgs (lavfiArgs cfg par) = none)
    (hw : 2560 < w) (hh : 1440 < h) :
    lavfiWithModel cfg par (some (w, h)) =
      (lavfiBase cfg par ++ vmaf4kToken, some .vmaf4K) := by
  simp [lavfiWithModel, hmf, hw, hh]

theorem nthreads_token_contains (n : Nat) :
    strContains ("n_threads=".data ++ natToStr n) "n_threads".data = true := by
  rw [strContains, decide_eq_true_eq]
  exact (pre_append_of_pre _ (by decide)).isInfix

theorem nthreads_token_no_model (n : Nat) :
    strContains ("n_threads=".data ++ natToStr n) "model".data = false := by
  rw [strContains, decide_eq_false_iff_not]
  intro hinf
  have hm : 'm' ∈ "n_threads=".data ++ natToStr n := mem_of_infix hinf 'm' (by decide)
  rcases List.mem_append.mp hm with hm | hm
  · exact absurd hm (by decide)
  · exact absurd (digit_mem_natToStr hm) (by decide)

/-- C7: the filter-graph builder is a total function of its inputs (this
embedding of `ffmpeg_lavfi` returns a string for every configuration); when
no raw tool argument mentions `n_threads`, exactly one `n_threads` token is
appended, set to the available parallelism with minimum 1; and on the fixed
round-trip inputs (no raw arguments, automatic scaling policy, absent
distorted resolution, absent pixel format, no reference filter) the
produced string is exactly the two format-free, scale-free branches
followed by the libvmaf invocation with that thread count. -/
theorem ffmpegLavfi_roundtrip (cfg : VmafCfg) (par : Option Nat)
    (hpar : ∀ p, par = some p → 1 ≤ p) :
    1 ≤ defaultNThreads par ∧
    ((∀ a ∈ cfg.vmafArgs, strContains a "n_threads".data = false) →
      lavfiArgs cfg par =
        cfg.vmafArgs ++ ["n_threads=".data ++ natToStr (defaultNThreads par)] ∧
      ((lavfiArgs cfg par).filter (fun a => strContains a "n_threads".data)).length = 1) ∧
    (cfg.vmafArgs = [] → cfg.vmafScale = .auto →
      ffmpegLavfi cfg par none none none =
        "[0:v]setpts=PTS-STARTPTS,settb=AVTB[dis];[1:v]setpts=PTS-STARTPTS,settb=AVTB[ref];[dis][ref]libvmaf=shortest=true:ts_sync_mode=nearest:n_threads=".data
          ++ natToStr (defaultNThreads par)) := by
  refine ⟨?_, ?_, ?_⟩
  · cases hp : par with
    | none => exact le_refl 1
    | some p => exact hpar p hp
  · intro hno
    have hany : cfg.vmafArgs.any (fun a => strContains a "n_threads".data) = false := by
      rw [List.any_eq_false]
      intro a ha
      rw [hno a ha]
      simp
    have hla : lavfiArgs cfg par =
        cfg.vmafArgs ++ ["n_threads=".data ++ natToStr (defaultNThreads par)] := by
      rw [lavfiArgs, if_neg (by rw [hany]; simp)]
    refine ⟨hla, ?_⟩
    rw [hla, List.filter_append]
    have h1 : cfg.vmafArgs.filter (fun a => strContains a "n_threads".data) = [] := by
      rw [List.filter_eq_nil_iff]
      intro a ha
      rw [hno a ha]
      simp
    rw [h1, List.nil_append, List.filter_cons, nthreads_token_contains]
    simp
  · intro hargs hauto
    have hla : lavfiArgs cfg par =
        ["n_threads=".data ++ natToStr (defaultNThreads par)] := by
      rw [lavfiArgs, hargs]
      simp
    have hmf : vmafModelFromArgs (lavfiArgs cfg par) = none := by
      rw [vmafModelFromArgs, hla, List.filter_cons, nthreads_token_no_model]
      simp
    have hlm : lavfiWithModel cfg par none = (lavfiBase cfg par, none) := by
      rw [lavfiWithModel_none_res, hmf]
    have hbase : lavfiBase cfg par =
        "libvmaf=shortest=true:ts_sync_mode=nearest:".data ++
          ("n_threads=".data ++ natToStr (defaultNThreads par)) := by
      rw [lavfiBase, hla, intercal]
    rw [ffmpegLavfi]
    simp only [hlm, hauto, hbase]
    simp [ffmpegLavfi, vfScale, hauto, scaleStepStr, formatStr, refVfStr, List.append_assoc]

/-- Witness for C7: an argument list without `n_threads`, and the default
round trip, at parallelism 8. -/
theorem ffmpegLavfi_roundtrip_witness :
    (lavfiArgs { vmafArgs := ["n_subsample=4".data], vmafScale := .auto, vmafFps := 25 }
        (some 8) = ["n_subsample=4".data, "n_threads=8".data] ∧
      ((lavfiArgs { vmafArgs := ["n_subsample=4".data], vmafScale := .auto, vmafFps := 25 }
        (some 8)).filter (fun a => strContains a "n_threads".data)).length = 1) ∧
    ffmpegLavfi { vmafArgs := [], vmafScale := .auto, vmafFps := 25 } (some 8)
        none none none =
      "[0:v]setpts=PTS-STARTPTS,settb=AVTB[dis];[1:v]setpts=PTS-STARTPTS,settb=AVTB[ref];[dis][ref]libvmaf=shortest=true:ts_sync_mode=nearest:n_threads=8".data := by
  refine ⟨?_, ?_⟩
  · have h := (ffmpegLavfi_roundtrip
      { vmafArgs := ["n_subsample=4".data], vmafScale := .auto, vmafFps := 25 }
      (some 8) (fun p hp => by injection hp with h; omega)).2.1 (by decide)
    exact ⟨h.1.trans (by decide), h.2⟩
  · have h := (ffmpegLavfi_roundtrip
      { vmafArgs := [], vmafScale := .auto, vmafFps := 25 }
      (some 8) (fun p hp => by injection hp with h; omega)).2.2 rfl rfl
    exact h.trans (by decide)

/-! ## C6 -/

/-- `VmafModel::from_args` returns `None` exactly on an empty
`model`-filter. -/
theorem vmafModelFromArgs_ne_none {l : List Str} {a : Str}
    (ha : a ∈ l) (hca : strContains a "model".data = true) :
    vmafModelFromArgs l ≠ none := by
  rw [vmafModelFromArgs]
  have hmem : a ∈ l.filter (fun v => strContains v "model".data) :=
    List.mem_filter.mpr ⟨ha, hca⟩
  cases hf : l.filter (fun v => strContains v "model".data) with
  | nil => rw [hf] at hmem; simp at hmem
  | cons x xs =>
    cases xs with
    | nil =>
      dsimp only
      split_ifs <;> simp
    | cons y ys => simp

/-- C6 (amended): with no `model`-mentioning raw argument and a distorted
resolution strictly exceeding 2560×1440, the produced filter graph ends
with the 4k model-override token; with any `model`-mentioning raw argument
no override token is appended (the libvmaf portion is exactly
`lavfiBase`); and when the single matching argument classifies as a custom
model — as `model=version=foo` does — the automatic scaling policy
produces no scale step for any distorted resolution.  (The original
claim's last clause fails for a built-in 1080p/4k model argument, which
still auto-scales; see the counterexample.) -/
theorem ffmpegLavfi_model_rules (cfg : VmafCfg) (par : Option Nat) :
    (∀ w h pix ref, (∀ a ∈ cfg.vmafArgs, strContains a "model".data = false) →
      2560 < w → 1440 < h →
      vmaf4kToken <:+ ffmpegLavfi cfg par (some (w, h)) pix ref) ∧
    (∀ res, (∃ a ∈ cfg.vmafArgs, strContains a "model".data = true) →
      (lavfiWithModel cfg par res).1 = lavfiBase cfg par) ∧
    (cfg.vmafScale = .auto → vmafModelFromArgs (lavfiArgs cfg par) = some .custom →
      ∀ res, vfScale cfg ((lavfiWithModel cfg par res).2.getD .vmaf1K) res = none) := by
  have hmem : ∀ a ∈ cfg.vmafArgs, a ∈ lavfiArgs cfg par := by
    intro a ha
    rw [lavfiArgs]
    split_ifs
    · exact ha
    · exact List.mem_append_left _ ha
  refine ⟨?_, ?_, ?_⟩
  · intro w h pix ref hno hw hh
    have hmf : vmafModelFromArgs (lavfiArgs cfg par) = none := by
      rw [vmafModelFromArgs]
      have hfil : (lavfiArgs cfg par).filter (fun v => strContains v "model".data) = [] := by
        rw [List.filter_eq_nil_iff]
        intro a ha
        rw [lavfiArgs] at ha
        split_ifs at ha
        · rw [hno a ha]; simp
        · rcases List.mem_append.mp ha with ha | ha
          · rw [hno a ha]; simp
          · rcases List.mem_cons.mp ha with rfl | ha
            · rw [nthreads_token_no_model]; simp
            · simp at ha
      rw [hfil]
    have h1 : (lavfiWithModel cfg par (some (w, h))).1 =
        lavfiBase cfg par ++ vmaf4kToken := by
      rw [lavfiWithModel_promote cfg par hmf hw hh]
    rw [ffmpegLavfi]
    simp only [h1]
    exact (List.suffix_append _ _).trans (List.suffix_append _ _)
  · intro res ⟨a, ha, hca⟩
    have hne := vmafModelFromArgs_ne_none (hmem a ha) hca
    rcases hm : vmafModelFromArgs (lavfiArgs cfg par) with - | m
    · exact absurd hm hne
    · rw [lavfiWithModel_some_model cfg par res m hm]
  · intro hscale hcust res
    have h2 : (lavfiWithModel cfg par res).2 = some .custom := by
      rw [lavfiWithModel_some_model cfg par res .custom hcust]
    rw [h2]
    rcases res with - | ⟨w, h⟩ <;> simp [vfScale, hscale]

/-- C6 counterexample: the raw argument `model=version=vmaf_v0.6.1`
contains `model`, yet at distorted resolution 1280×720 with the automatic
policy the builder still produces the `scale=1920:-1:flags=bicubic`
upscale step (the argument classifies as the built-in 1080p model, not a
custom one), refuting "no automatic scale step is produced … for every
distorted resolution". -/
theorem ffmpegLavfi_builtin_model_still_scales :
    strContains "model=version=vmaf_v0.6.1".data "model".data = true ∧
    vmafModelFromArgs (lavfiArgs
      { vmafArgs := ["model=version=vmaf_v0.6.1".data], vmafScale := .auto, vmafFps := 25 }
      (some 8)) = some .vmaf1K ∧
    strContains (ffmpegLavfi
      { vmafArgs := ["model=version=vmaf_v0.6.1".data], vmafScale := .auto, vmafFps := 25 }
      (some 8) (some (1280, 720)) none none) "scale=1920:-1:flags=bicubic".data = true := by
  refine ⟨by decide, by decide, by decide⟩

/-- Witness for C6: a no-`model` configuration at 3840×2160 ends with the
4k override token; `model=version=foo` suppresses the override and, being
custom, all automatic scaling. -/
theorem ffmpegLavfi_model_rules_witness :
    (vmaf4kToken <:+ ffmpegLavfi
      { vmafArgs := ["n_threads=5".data], vmafScale := .auto, vmafFps := 25 }
      (some 8) (some (3840, 2160)) none none) ∧
    ((lavfiWithModel
      { vmafArgs := ["model=version=foo".data], vmafScale := .auto, vmafFps := 25 }
      (some 8) (some (1280, 720))).1 =
        lavfiBase
          { vmafArgs := ["model=version=foo".data], vmafScale := .auto, vmafFps := 25 }
          (some 8)) ∧
    vfScale { vmafArgs := ["model=version=foo".data], vmafScale := .auto, vmafFps := 25 }
      ((lavfiWithModel
        { vmafArgs := ["model=version=foo".data], vmafScale := .auto, vmafFps := 25 }
        (some 8) (some (1280, 720))).2.getD .vmaf1K) (some (1280, 720)) = none :=
  ⟨(ffmpegLavfi_model_rules
      { vmafArgs := ["n_threads=5".data], vmafScale := .auto, vmafFps := 25 }
      (some 8)).1 3840 2160 none none (by decide) (by decide) (by decide),
   (ffmpegLavfi_model_rules
      { vmafArgs := ["model=version=foo".data], vmafScale := .auto, vmafFps := 25 }
      (some 8)).2.1 (some (1280, 720)) ⟨_, List.mem_singleton.mpr rfl, by decide⟩,
   (ffmpegLavfi_model_rules
      { vmafArgs := ["model=version=foo".data], vmafScale := .auto, vmafFps := 25 }
      (some 8)).2.2 rfl (by decide) (some (1280, 720))⟩

end AbAv1
